import Mathlib

/-!
Shallow embedding of the Real-ESRGAN lightweight upscaling service
(`src/app.py`): the upscale orchestrator `UpscalerService.upscale_image`,
the binary-engine invocation `_upscale_ncnn` (temp-file staging, timeout,
cleanup), the model-name table `_get_model_name`, the interpolation
fallback `_upscale_fallback`, the request pipeline `process_image`
(decode, normalization, upscale, encode) and the two HTTP endpoints
`upscale_binary` and `upscale_base64`.

Images are modelled by their geometry and color model (width, height,
channel count), which is everything the orchestration logic inspects.
The behavior of the outside world (the filesystem, the external binary,
the PNG codec) is an explicit environment value, so every exit path of
the Python code corresponds to a case of the environment.  Float
arithmetic in the normalizer is modelled exactly over the rationals;
`int(dim * (2048 / m))`, truncation of the exact product, is then
natural-number division `dim * 2048 / m`.
-/

set_option autoImplicit false

namespace UpscalerApp

/-- An in-memory raster image: width, height, and number of color
channels (the color model; RGB is 3 channels). -/
structure Image where
  width : Nat
  height : Nat
  channels : Nat
deriving DecidableEq

/-- The success-path geometry of `PIL.Image.resize(new_size, LANCZOS)`:
the raster resampled to the requested size, color model unchanged.
Pillow's `resize` raises `ValueError` when a target dimension is zero;
that error path is modelled by `pilResize` below.  `Image.resize` is
used only where the target is positive on the claims' domains (see
`upscale_fallback_run_agrees` and `normalizeRun_agrees`). -/
def Image.resize (img : Image) (size : Nat × Nat) : Image :=
  ⟨size.1, size.2, img.channels⟩

/-- `PIL.Image.convert` with mode RGB: forces a 3-channel color model. -/
def Image.convertRGB (img : Image) : Image :=
  ⟨img.width, img.height, 3⟩

/-- `PIL.Image.copy()`: detaches the raster from any backing file;
geometry and color model are unchanged. -/
def Image.copy (img : Image) : Image := img

/-- The model name `_get_model_name` returns for scale 2. -/
def animeVideoModel : String := "realesr-animevideov3"

/-- The model name `_get_model_name` returns for scales 4 and 8 and as
the `dict.get` default. -/
def generalX4Model : String := "realesrgan-x4plus"

/-- `UpscalerService._get_model_name` (src/app.py:85-91):
`model_map.get(scale, "realesrgan-x4plus")` over the table
`{2: "realesr-animevideov3", 4: "realesrgan-x4plus", 8: "realesrgan-x4plus"}`. -/
def get_model_name (scale : Nat) : String :=
  if scale = 2 then animeVideoModel
  else if scale = 4 then generalX4Model
  else if scale = 8 then generalX4Model
  else generalX4Model

/-- `UpscalerService._upscale_fallback` (src/app.py:93-96): Lanczos
resize to `(width * scale, height * scale)`. -/
def upscale_fallback (image : Image) (scale : Nat) : Image :=
  Image.resize image (image.width * scale, image.height * scale)

/-- Result of `subprocess.run(cmd, ..., timeout=60)`: either the
60-second wall-clock timeout expired (`TimeoutExpired` is raised), or
the process completed with an exit code. -/
inductive ProcOutcome where
  | timeout
  | completed (returncode : Int)
deriving DecidableEq

/-- Environment oracle for one `_upscale_ncnn` invocation: the temp-file
names handed out by `tempfile.NamedTemporaryFile`, and the behavior of
the staging write, the external process and the output decode, none of
which the Python code controls. -/
structure NcnnEnv where
  /-- `input_file.name`. -/
  inputPath : String
  /-- `output_file.name`. -/
  outputPath : String
  /-- whether `image.save(input_file.name, PNG)` succeeds (`false` is an
  unexpected exception while staging). -/
  saveOk : Bool
  /-- behavior of `subprocess.run`. -/
  proc : ProcOutcome
  /-- `os.path.exists(output_file.name)` after the process step.
  `NamedTemporaryFile` creates the file, so in practice this is `true`
  unless the binary removed it. -/
  outputExistsAfter : Bool
  /-- `Image.open(output_file.name)`: the decoded output image, or
  `none` if decoding raises (e.g. the binary left the file empty). -/
  openResult : Option Image
deriving DecidableEq

/-- The exception `_upscale_ncnn` raises, by source. -/
inductive EngineError where
  /-- unexpected exception while staging the input image -/
  | saveFailed
  /-- `subprocess.TimeoutExpired` after 60 seconds -/
  | timedOut
  /-- non-zero exit code (`NCNN processing failed`, src/app.py:70-72) -/
  | ncnnFailed
  /-- output file absent (`Output file not created`, src/app.py:77-78) -/
  | outputMissing
  /-- unexpected exception decoding the output file -/
  | openFailed
deriving DecidableEq

/-- Existence on the filesystem of the two staging files of one
`_upscale_ncnn` call. -/
structure FsState where
  inputExists : Bool
  outputExists : Bool
deriving DecidableEq

/-- The `finally` block of `_upscale_ncnn` (src/app.py:80-83): for each
of the two temp files, `if os.path.exists(temp_file): os.unlink(temp_file)`. -/
def cleanup (fs : FsState) : FsState :=
  let fs1 := if fs.inputExists then { fs with inputExists := false } else fs
  if fs1.outputExists then { fs1 with outputExists := false } else fs1

def flagIn : String := "-i"
def flagOut : String := "-o"
def flagModel : String := "-n"
def flagScale : String := "-s"
def flagFormat : String := "-f"
def pngFormat : String := "png"

/-- The argument vector `cmd` built on src/app.py:59-66. -/
def ncnn_cmd (binary inputPath outputPath : String) (scale : Nat) : List String :=
  [binary, flagIn, inputPath, flagOut, outputPath,
   flagModel, get_model_name scale, flagScale, toString scale,
   flagFormat, pngFormat]

deriving instance DecidableEq for Except

/-- Observable outcome of one `_upscale_ncnn` call: the returned image
or the raised exception, the final existence of the two staging files,
and the argument vector passed to `subprocess.run` (`none` when the call
failed before reaching it). -/
structure NcnnRun where
  result : Except EngineError Image
  fs : FsState
  cmd : Option (List String)
deriving DecidableEq

/-- The `try` body of `_upscale_ncnn` (src/app.py:54-78), entered after
both staging files have been created (so both exist).  Yields the
`Except` value of the body, the filesystem state at the moment the body
is left, and the command vector if `subprocess.run` was reached. -/
def ncnn_try_body (binary : String) (env : NcnnEnv) (scale : Nat) :
    Except EngineError Image × FsState × Option (List String) :=
  if env.saveOk then
    let cmd := ncnn_cmd binary env.inputPath env.outputPath scale
    match env.proc with
    | .timeout => (.error .timedOut, ⟨true, env.outputExistsAfter⟩, some cmd)
    | .completed rc =>
      if rc ≠ 0 then (.error .ncnnFailed, ⟨true, env.outputExistsAfter⟩, some cmd)
      else if env.outputExistsAfter then
        match env.openResult with
        | some out => (.ok out.copy, ⟨true, env.outputExistsAfter⟩, some cmd)
        | none => (.error .openFailed, ⟨true, env.outputExistsAfter⟩, some cmd)
      else (.error .outputMissing, ⟨true, env.outputExistsAfter⟩, some cmd)
  else (.error .saveFailed, ⟨true, true⟩, none)

/-- `UpscalerService._upscale_ncnn` (src/app.py:51-83): the `try` body
followed, on every exit path, by the `finally` cleanup of the two
staging files. -/
def upscale_ncnn (binary : String) (env : NcnnEnv) (scale : Nat) : NcnnRun :=
  let r := ncnn_try_body binary env scale
  ⟨r.1, cleanup r.2.1, r.2.2⟩

/-- `true` iff the `_upscale_ncnn` call raised (any of the engine
failure kinds). -/
def isEngineFailure (r : Except EngineError Image) : Bool :=
  match r with
  | .error _ => true
  | .ok _ => false

/-- Process-wide engine availability (`self.realesrgan_binary` after
`_check_binary`: the binary path, or `None` when absent) together with
the per-call environment oracle. -/
structure EngineEnv where
  binary : Option String
  ncnn : NcnnEnv
deriving DecidableEq

/-- `UpscalerService.upscale_image` (src/app.py:40-49): if a binary is
available, run `_upscale_ncnn`; any exception it raises is caught and
answered with `_upscale_fallback`; with no binary, fall back directly. -/
def upscale_image (env : EngineEnv) (image : Image) (scale : Nat) : Image :=
  match env.binary with
  | some b =>
    match (upscale_ncnn b env.ncnn scale).result with
    | .ok out => out
    | .error _ => upscale_fallback image scale
  | none => upscale_fallback image scale

/-- The failure Pillow's `resize` can raise. -/
inductive PilError where
  /-- `ValueError`: height and width must be positive, raised when a
  target dimension is zero -/
  | zeroSize
deriving DecidableEq

/-- `PIL.Image.resize(new_size, LANCZOS)` with its error path: Pillow
raises `ValueError` (height and width must be positive) when a target
dimension is zero; otherwise it resamples to the target size, keeping
the color model. -/
def pilResize (img : Image) (size : Nat × Nat) : Except PilError Image :=
  if size.1 = 0 ∨ size.2 = 0 then .error .zeroSize
  else .ok ⟨size.1, size.2, img.channels⟩

/-- `UpscalerService._upscale_fallback` (src/app.py:93-96) with Pillow's
raising resize; it agrees with `upscale_fallback` whenever width, height
and scale are positive (`upscale_fallback_run_agrees`). -/
def upscale_fallback_run (image : Image) (scale : Nat) : Except PilError Image :=
  pilResize image (image.width * scale, image.height * scale)

/-- `max_size` (src/app.py:104). -/
def max_size : Nat := 2048

/-- The success-path geometry of the normalization step of
`process_image` (src/app.py:104-108): when `max(width, height) > 2048`,
each dimension becomes `int(dim * (2048 / m))` — in exact arithmetic,
`dim * 2048 / m` with natural division (truncation toward zero) —
otherwise the image is unchanged.  The faithful model of the step,
including Pillow's `ValueError` when a truncated dimension is zero, is
`normalizeRun`; it agrees with this function whenever it succeeds
(`normalizeRun_agrees`). -/
def normalize (image : Image) : Image :=
  let m := max image.width image.height
  if m > max_size then
    Image.resize image (image.width * max_size / m, image.height * max_size / m)
  else image

/-- The normalization step of `process_image` (src/app.py:104-108) as
executed: when `max(width, height) > 2048` the code calls Pillow's
resize on the truncated dimensions, which raises `ValueError` if one of
them is zero; within the bound the image is returned unchanged. -/
def normalizeRun (image : Image) : Except PilError Image :=
  let m := max image.width image.height
  if m > max_size then
    pilResize image (image.width * max_size / m, image.height * max_size / m)
  else .ok image

/-- Modelled from the spec: the claim wording for the normalizer
(`ImageNormalizer`, spec section 4.2) rounds each dimension to the
NEAREST integer instead of truncating.  `roundNearest num den` is the
nearest integer to the rational `num / den` (halves rounding up). -/
def roundNearest (num den : Nat) : Nat := (2 * num + den) / (2 * den)

/-- Modelled from the spec: the normalizer as the spec words describe
it, with each new dimension rounded to the nearest integer
independently; for comparison against `normalize`, which truncates. -/
def normalize_nearest (image : Image) : Image :=
  let m := max image.width image.height
  if m > max_size then
    Image.resize image
      (roundNearest (image.width * max_size) m,
       roundNearest (image.height * max_size) m)
  else image

/-- Modelled from the spec: the external Real-ESRGAN binary is not part
of this repository; the spec treats every engine as an opaque capability
`enhance(image, scale) -> image` whose output edges equal
`(width * scale, height * scale)` and whose color model matches the
input.  This predicate constrains the binary-path output decoded by
`Image.open` to that contract. -/
def engineContract (env : NcnnEnv) (image : Image) (scale : Nat) : Prop :=
  ∀ out, env.openResult = some out →
    out.width = image.width * scale ∧ out.height = image.height * scale ∧
    out.channels = image.channels

/-- An HTTP error (`fastapi.HTTPException`): status code and detail. -/
structure HttpError where
  status : Nat
  detail : String
deriving DecidableEq

/-- Detail of the `HTTPException(400)` raised by `process_image`
(src/app.py:120); the Python string also appends the cause text. -/
def processingFailed : String := "Image processing failed"

/-- Detail of the scale rejection at both endpoints (src/app.py:140,154). -/
def scaleMustBe : String := "Scale must be 2, 4, or 8"

/-- Detail of the content-type rejection (src/app.py:137). -/
def fileMustBeImage : String := "File must be an image"

/-- Detail of the base64 rejection (src/app.py:159). -/
def invalidBase64 : String := "Invalid base64 image data"

/-- Per-request environment for `process_image`: the decode result of
`Image.open` on the raw bytes (`none` when the bytes are corrupt or
undecodable), the engine environment, and whether the final PNG encode
succeeds. -/
structure AppEnv where
  decoded : Option Image
  engine : EngineEnv
  encodeOk : Bool
deriving DecidableEq

/-- `process_image` (src/app.py:100-120): decode and convert to RGB,
normalize, upscale, encode to PNG; any exception in the block — a
decode failure, the normalizer's resize raising on a zero dimension, or
an encode failure — is caught and answered with
`HTTPException(status_code=400)` whose detail starts with the
`processingFailed` text.  The ok value is the image carried by the
returned bytes. -/
def process_image (env : AppEnv) (scale : Nat) : Except HttpError Image :=
  match env.decoded with
  | none => .error ⟨400, processingFailed⟩
  | some raw =>
    match normalizeRun raw.convertRGB with
    | .error _ => .error ⟨400, processingFailed⟩
    | .ok image =>
      let upscaled := upscale_image env.engine image scale
      if env.encodeOk then .ok upscaled else .error ⟨400, processingFailed⟩

/-- The scale whitelist `[2, 4, 8]` of both endpoints
(src/app.py:139,153). -/
def validScales : List Nat := [2, 4, 8]

/-- The `image/` content-type marker (src/app.py:136). -/
def imageMime : String := "image/"

/-- `content_type.startswith` with the `image/` marker (src/app.py:136),
as a prefix test on the character sequences. -/
def contentTypeIsImage (contentType : String) : Bool :=
  imageMime.data.isPrefixOf contentType.data

/-- Endpoint `POST` upscale binary (src/app.py:134-149): reject a
non-image content type, then reject a scale outside `{2,4,8}`, then run
`process_image`. -/
def upscale_binary (contentType : String) (scale : Nat) (env : AppEnv) :
    Except HttpError Image :=
  if ¬ contentTypeIsImage contentType then .error ⟨400, fileMustBeImage⟩
  else if scale ∉ validScales then .error ⟨400, scaleMustBe⟩
  else process_image env scale

/-- Endpoint `POST` upscale base64 (src/app.py:151-164): reject a scale
outside `{2,4,8}`, then reject undecodable base64, then run
`process_image` (whose output is re-encoded as base64). -/
def upscale_base64 (b64ok : Bool) (scale : Nat) (env : AppEnv) :
    Except HttpError Image :=
  if scale ∉ validScales then .error ⟨400, scaleMustBe⟩
  else if ¬ b64ok then .error ⟨400, invalidBase64⟩
  else process_image env scale

/-- A concrete staging input path for sample environments. -/
def samplePathIn : String := "/tmp/tmp-in.png"

/-- A concrete staging output path for sample environments. -/
def samplePathOut : String := "/tmp/tmp-out.png"

/-- A concrete binary path for sample environments. -/
def sampleBinaryPath : String := "/app/realesrgan-ncnn-vulkan"

/-- A concrete per-call engine environment: temp paths, staging
succeeds, process exits 0, output present but undecodable. -/
def sampleNcnnEnv : NcnnEnv :=
  { inputPath := samplePathIn, outputPath := samplePathOut, saveOk := true,
    proc := .completed 0, outputExistsAfter := true, openResult := none }

/-- A request environment whose raw bytes are corrupt: `Image.open`
raises, so even the unconditional interpolation fallback can never run —
the exhaustion case of the spec error taxonomy. -/
def corruptEnv : AppEnv :=
  { decoded := none, engine := { binary := none, ncnn := sampleNcnnEnv },
    encodeOk := true }

/-- A per-call engine environment that times out after 60 seconds. -/
def timeoutNcnnEnv : NcnnEnv :=
  { inputPath := samplePathIn, outputPath := samplePathOut, saveOk := true,
    proc := .timeout, outputExistsAfter := true, openResult := none }

/-- The `finally` cleanup deletes an existing input file and whatever
state the output file is in. -/
theorem cleanup_of_input_exists (b : Bool) :
    cleanup ⟨true, b⟩ = ⟨false, false⟩ := by
  cases b <;> rfl

/-- The `try` body can only return normally with the image decoded from
the output file (then copied). -/
theorem ncnn_ok_openResult (binary : String) (env : NcnnEnv) (scale : Nat)
    (out : Image) (h : (upscale_ncnn binary env scale).result = .ok out) :
    env.openResult = some out := by
  rcases env with ⟨ip, op, so, pr, oea, orr⟩
  cases so with
  | false => simp [upscale_ncnn, ncnn_try_body] at h
  | true =>
    cases pr with
    | timeout => simp [upscale_ncnn, ncnn_try_body] at h
    | completed rc =>
      by_cases hrc : rc = 0
      · cases oea with
        | false => simp [upscale_ncnn, ncnn_try_body, hrc] at h
        | true =>
          rcases orr with _ | o
          · simp [upscale_ncnn, ncnn_try_body, hrc] at h
          · simp [upscale_ncnn, ncnn_try_body, hrc, Image.copy] at h
            simp [h]
      · simp [upscale_ncnn, ncnn_try_body, hrc] at h

/-- C4: after every `_upscale_ncnn` call returns or raises — success,
non-zero exit, timeout, or an unexpected exception inside the `try`
body — neither of the two staging files it created still exists. -/
theorem ncnn_temp_files_deleted (binary : String) (env : NcnnEnv) (scale : Nat) :
    (upscale_ncnn binary env scale).fs = ⟨false, false⟩ := by
  rcases env with ⟨ip, op, so, pr, oea, orr⟩
  cases so <;> cases pr <;> cases oea <;> rcases orr with _ | o <;>
    first
      | rfl
      | (rename_i rc
         by_cases hrc : rc = 0 <;>
         simp [upscale_ncnn, ncnn_try_body, cleanup, hrc])

/-- A staging exception makes `_upscale_ncnn` raise. -/
theorem ncnn_fails_of_save_failed (binary : String) (env : NcnnEnv)
    (scale : Nat) (h : env.saveOk = false) :
    isEngineFailure (upscale_ncnn binary env scale).result = true := by
  rcases env with ⟨ip, op, so, pr, oea, orr⟩
  cases h
  rfl

/-- The 60-second timeout makes `_upscale_ncnn` raise. -/
theorem ncnn_fails_of_timeout (binary : String) (env : NcnnEnv)
    (scale : Nat) (h : env.proc = ProcOutcome.timeout) :
    isEngineFailure (upscale_ncnn binary env scale).result = true := by
  rcases env with ⟨ip, op, so, pr, oea, orr⟩
  cases so
  · rfl
  · cases h
    rfl

/-- A non-zero exit code makes `_upscale_ncnn` raise. -/
theorem ncnn_fails_of_nonzero_exit (binary : String) (env : NcnnEnv)
    (scale : Nat) (rc : Int) (h : env.proc = ProcOutcome.completed rc)
    (hrc : rc ≠ 0) :
    isEngineFailure (upscale_ncnn binary env scale).result = true := by
  rcases env with ⟨ip, op, so, pr, oea, orr⟩
  cases so
  · rfl
  · cases h
    simp [upscale_ncnn, ncnn_try_body, isEngineFailure, hrc]

/-- A missing output file makes `_upscale_ncnn` raise. -/
theorem ncnn_fails_of_missing_output (binary : String) (env : NcnnEnv)
    (scale : Nat) (h : env.outputExistsAfter = false) :
    isEngineFailure (upscale_ncnn binary env scale).result = true := by
  rcases env with ⟨ip, op, so, pr, oea, orr⟩
  cases h
  cases so
  · rfl
  · cases pr with
    | timeout => rfl
    | completed rc =>
      by_cases hrc : rc = 0 <;>
        simp [upscale_ncnn, ncnn_try_body, isEngineFailure, hrc]

/-- When `_upscale_ncnn` raises, the orchestrator answers with the
fallback result. -/
theorem upscale_image_fallback_of_failure (env : EngineEnv) (image : Image)
    (scale : Nat) (b : String) (hb : env.binary = some b)
    (h : isEngineFailure (upscale_ncnn b env.ncnn scale).result = true) :
    upscale_image env image scale = upscale_fallback image scale := by
  unfold upscale_image
  rw [hb]
  cases hres : (upscale_ncnn b env.ncnn scale).result with
  | ok out => rw [hres] at h; simp [isEngineFailure] at h
  | error e => simp [hres]

/-- C2: every failure of the binary-engine path — staging exception,
60-second timeout, non-zero process exit, missing output file — makes
`_upscale_ncnn` raise an engine error, and `upscale_image` absorbs every
such error by returning the interpolation fallback result instead; no
engine-specific failure propagates to its caller. -/
theorem upscale_image_absorbs_engine_failures (env : EngineEnv)
    (image : Image) (scale : Nat) (b : String) (hb : env.binary = some b) :
    (env.ncnn.saveOk = false →
       isEngineFailure (upscale_ncnn b env.ncnn scale).result = true) ∧
    (env.ncnn.proc = ProcOutcome.timeout →
       isEngineFailure (upscale_ncnn b env.ncnn scale).result = true) ∧
    (∀ rc : Int, env.ncnn.proc = ProcOutcome.completed rc → rc ≠ 0 →
       isEngineFailure (upscale_ncnn b env.ncnn scale).result = true) ∧
    (env.ncnn.outputExistsAfter = false →
       isEngineFailure (upscale_ncnn b env.ncnn scale).result = true) ∧
    (isEngineFailure (upscale_ncnn b env.ncnn scale).result = true →
       upscale_image env image scale = upscale_fallback image scale) := by
  refine ⟨?_, ?_, ?_, ?_, ?_⟩
  · exact ncnn_fails_of_save_failed b env.ncnn scale
  · exact ncnn_fails_of_timeout b env.ncnn scale
  · exact fun rc => ncnn_fails_of_nonzero_exit b env.ncnn scale rc
  · exact ncnn_fails_of_missing_output b env.ncnn scale
  · exact upscale_image_fallback_of_failure env image scale b hb

/-- A concrete engine environment whose binary invocation times out. -/
def timeoutEngineEnv : EngineEnv :=
  { binary := some sampleBinaryPath, ncnn := timeoutNcnnEnv }

/-- Witness for C2: with the binary present and the process timing out,
the orchestrator returns exactly the fallback result. -/
theorem upscale_image_absorbs_engine_failures_witness :
    upscale_image timeoutEngineEnv ⟨10, 20, 3⟩ 4 =
      upscale_fallback ⟨10, 20, 3⟩ 4 := by
  have h := upscale_image_absorbs_engine_failures timeoutEngineEnv
    ⟨10, 20, 3⟩ 4 sampleBinaryPath rfl
  exact h.2.2.2.2 (h.2.1 rfl)

/-- C6: whenever the external binary is invoked, the argument vector is
exactly `<binary> -i <input> -o <output> -n <modelName> -s <scale> -f png`,
with the model name drawn from the fixed table sending 2 to the fast
anime-video model and 4 and 8 to the general x4 model, and any
unrecognized scale defaulting to the general x4 model. -/
theorem ncnn_cmd_shape (binary : String) (env : NcnnEnv) (scale : Nat)
    (h : env.saveOk = true) :
    (upscale_ncnn binary env scale).cmd =
      some [binary, flagIn, env.inputPath, flagOut, env.outputPath,
            flagModel, get_model_name scale, flagScale, toString scale,
            flagFormat, pngFormat] ∧
    get_model_name 2 = animeVideoModel ∧
    get_model_name 4 = generalX4Model ∧
    get_model_name 8 = generalX4Model ∧
    ∀ s : Nat, s ∉ validScales → get_model_name s = generalX4Model := by
  refine ⟨?_, rfl, rfl, rfl, ?_⟩
  · rcases env with ⟨ip, op, so, pr, oea, orr⟩
    cases h
    cases pr with
    | timeout => rfl
    | completed rc =>
      by_cases hrc : rc = 0
      · cases oea <;> rcases orr with _ | o <;>
          simp [upscale_ncnn, ncnn_try_body, ncnn_cmd, hrc]
      · simp [upscale_ncnn, ncnn_try_body, ncnn_cmd, hrc]
  · intro s hs
    simp [validScales] at hs
    obtain ⟨h2, h4, h8⟩ := hs
    simp [get_model_name, h2, h4, h8]

/-- Witness for C6 at scale 3 with staging succeeding: the command is
built with the default general x4 model. -/
theorem ncnn_cmd_shape_witness :
    (upscale_ncnn sampleBinaryPath sampleNcnnEnv 3).cmd =
      some [sampleBinaryPath, flagIn, samplePathIn, flagOut, samplePathOut,
            flagModel, get_model_name 3, flagScale, toString 3,
            flagFormat, pngFormat] ∧
    get_model_name 3 = generalX4Model := by
  have h := ncnn_cmd_shape sampleBinaryPath sampleNcnnEnv 3 rfl
  exact ⟨h.1, h.2.2.2.2 3 (by decide)⟩

/-- Resizing never changes the color model, so normalization preserves
the channel count. -/
theorem normalize_channels (image : Image) :
    (normalize image).channels = image.channels := by
  simp only [normalize]
  split <;> rfl

/-- Whenever the executed normalization step succeeds, its value is the
success-path geometry `normalize`. -/
theorem normalizeRun_agrees (image out : Image)
    (h : normalizeRun image = Except.ok out) : out = normalize image := by
  simp only [normalizeRun, normalize, pilResize] at h ⊢
  by_cases hm : max image.width image.height > max_size
  · rw [if_pos hm] at h ⊢
    by_cases hz : image.width * max_size / max image.width image.height = 0 ∨
        image.height * max_size / max image.width image.height = 0
    · rw [if_pos hz] at h
      cases h
    · rw [if_neg hz] at h
      injection h with h
      exact h.symm
  · rw [if_neg hm] at h ⊢
    injection h with h
    exact h.symm

/-- On positive dimensions and a positive scale, the fallback's resize
target is positive, so Pillow's resize succeeds and the executed
fallback agrees with the success-path geometry `upscale_fallback`. -/
theorem upscale_fallback_run_agrees (image : Image) (scale : Nat)
    (hw : 0 < image.width) (hh : 0 < image.height) (hs : 0 < scale) :
    upscale_fallback_run image scale = Except.ok (upscale_fallback image scale) := by
  unfold upscale_fallback_run pilResize upscale_fallback Image.resize
  rw [if_neg (not_or.mpr
    ⟨Nat.pos_iff_ne_zero.mp (Nat.mul_pos hw hs),
     Nat.pos_iff_ne_zero.mp (Nat.mul_pos hh hs)⟩)]

/-- With exact arithmetic, truncating both scaled dimensions keeps the
longest edge at exactly `max_size`. -/
theorem normalize_max_edge (w h : Nat) (hm : max w h > max_size) :
    max (w * max_size / max w h) (h * max_size / max w h) = max_size := by
  have hpos : 0 < max w h := lt_trans (by norm_num [max_size]) hm
  rcases le_total w h with hle | hle
  · rw [max_eq_right hle]
    have hpos2 : 0 < h := by rw [max_eq_right hle] at hpos; exact hpos
    have hh : h * max_size / h = max_size := Nat.mul_div_cancel_left max_size hpos2
    have hw : w * max_size / h ≤ max_size := by
      calc w * max_size / h ≤ h * max_size / h :=
            Nat.div_le_div_right (Nat.mul_le_mul_right max_size hle)
        _ = max_size := hh
    rw [hh]
    exact max_eq_right hw
  · rw [max_eq_left hle]
    have hpos2 : 0 < w := by rw [max_eq_left hle] at hpos; exact hpos
    have hw : w * max_size / w = max_size := Nat.mul_div_cancel_left max_size hpos2
    have hh : h * max_size / w ≤ max_size := by
      calc h * max_size / w ≤ w * max_size / w :=
            Nat.div_le_div_right (Nat.mul_le_mul_right max_size hle)
        _ = max_size := hw
    rw [hw]
    exact max_eq_left hh

/-- C1: for every input image and scale in {2,4,8}, the image the
orchestrator returns has dimensions exactly (w*scale, h*scale) on every
path — binary engine (under the spec's engine contract for the external
binary's output) and interpolation fallback alike. -/
theorem upscale_image_dims (env : EngineEnv) (image : Image) (scale : Nat)
    (_hs : scale ∈ validScales)
    (hc : engineContract env.ncnn image scale) :
    (upscale_image env image scale).width = image.width * scale ∧
    (upscale_image env image scale).height = image.height * scale := by
  cases hbin : env.binary with
  | none => simp [upscale_image, hbin, upscale_fallback, Image.resize]
  | some b =>
    cases hres : (upscale_ncnn b env.ncnn scale).result with
    | ok out =>
      have hopen := ncnn_ok_openResult b env.ncnn scale out hres
      obtain ⟨hw, hh, hch⟩ := hc out hopen
      simp [upscale_image, hbin, hres, hw, hh]
    | error e =>
      simp [upscale_image, hbin, hres, upscale_fallback, Image.resize]

/-- Witness for C1: a 10x20 image at scale 2 with the binary present but
timing out comes back as 20x40. -/
theorem upscale_image_dims_witness :
    (upscale_image timeoutEngineEnv ⟨10, 20, 3⟩ 2).width = 10 * 2 ∧
    (upscale_image timeoutEngineEnv ⟨10, 20, 3⟩ 2).height = 20 * 2 :=
  upscale_image_dims timeoutEngineEnv ⟨10, 20, 3⟩ 2 (by decide)
    (fun out h => by simp [timeoutEngineEnv, timeoutNcnnEnv] at h)

/-- C8: the orchestrator's output keeps the 3-channel color model of the
normalized RGB input on every path — binary engine (under the spec's
engine contract) and interpolation fallback alike. -/
theorem upscale_image_channels (env : EngineEnv) (raw : Image) (scale : Nat)
    (hc : engineContract env.ncnn (normalize raw.convertRGB) scale) :
    (normalize raw.convertRGB).channels = 3 ∧
    (upscale_image env (normalize raw.convertRGB) scale).channels = 3 := by
  have hch : (normalize raw.convertRGB).channels = 3 :=
    (normalize_channels raw.convertRGB).trans rfl
  refine ⟨hch, ?_⟩
  cases hbin : env.binary with
  | none =>
    simp [upscale_image, hbin, upscale_fallback, Image.resize, hch]
  | some b =>
    cases hres : (upscale_ncnn b env.ncnn scale).result with
    | ok out =>
      have hopen := ncnn_ok_openResult b env.ncnn scale out hres
      obtain ⟨hw, hh, hcc⟩ := hc out hopen
      simp [upscale_image, hbin, hres, hcc, hch]
    | error e =>
      simp [upscale_image, hbin, hres, upscale_fallback, Image.resize, hch]

/-- Witness for C8: a decoded 4-channel 10x20 image is converted to RGB,
normalized, and after the timed-out engine path the fallback output is
3-channel. -/
theorem upscale_image_channels_witness :
    (normalize (Image.convertRGB ⟨10, 20, 4⟩)).channels = 3 ∧
    (upscale_image timeoutEngineEnv
       (normalize (Image.convertRGB ⟨10, 20, 4⟩)) 4).channels = 3 :=
  upscale_image_channels timeoutEngineEnv ⟨10, 20, 4⟩ 4
    (fun out h => by simp [timeoutEngineEnv, timeoutNcnnEnv] at h)

/-- C3 counterexample: on a 4096x3 image the executed normalization
step returns the 2048x1 image — the scaled height 1.5 is truncated down
to 1 — while the claim's round-to-nearest normalizer yields height 2:
the code does not round to the nearest integer. -/
theorem normalize_truncation_counterexample :
    normalizeRun ⟨4096, 3, 3⟩ = Except.ok ⟨2048, 1, 3⟩ ∧
    (normalize_nearest ⟨4096, 3, 3⟩).height = 2 ∧
    normalizeRun ⟨4096, 3, 3⟩ ≠ Except.ok (normalize_nearest ⟨4096, 3, 3⟩) := by
  decide

/-- C3 amended: when `max(width, height) > 2048` the normalizer hands
Pillow the dimensions `dim * 2048 / max(width, height)` truncated toward
zero (floored) independently; whenever both truncated dimensions are
positive the resize succeeds, and the longest edge of the result is then
exactly 2048 in exact arithmetic (a zero truncated dimension instead
raises — see the C9 result); any image already within the bound is left
unchanged. -/
theorem normalize_truncates (image : Image)
    (h : max image.width image.height > max_size)
    (hw : 0 < image.width * max_size / max image.width image.height)
    (hh : 0 < image.height * max_size / max image.width image.height) :
    normalizeRun image = Except.ok (Image.resize image
      (image.width * max_size / max image.width image.height,
       image.height * max_size / max image.width image.height)) ∧
    max (Image.resize image
      (image.width * max_size / max image.width image.height,
       image.height * max_size / max image.width image.height)).width
      (Image.resize image
      (image.width * max_size / max image.width image.height,
       image.height * max_size / max image.width image.height)).height
      = max_size ∧
    ∀ small : Image, max small.width small.height ≤ max_size →
      normalizeRun small = Except.ok small := by
  refine ⟨?_, ?_, ?_⟩
  · simp only [normalizeRun, pilResize]
    rw [if_pos h]
    rw [if_neg (not_or.mpr ⟨Nat.pos_iff_ne_zero.mp hw, Nat.pos_iff_ne_zero.mp hh⟩)]
    rfl
  · simpa [Image.resize] using normalize_max_edge image.width image.height h
  · intro small hsmall
    simp only [normalizeRun]
    rw [if_neg (not_lt.mpr hsmall)]

/-- Witness for C3 amended: a 4097x100 image has positive truncated
dimensions, the executed normalization succeeds with 2048x49, and the
longest edge is exactly 2048. -/
theorem normalize_truncates_witness :
    normalizeRun ⟨4097, 100, 3⟩ = Except.ok ⟨2048, 49, 3⟩ ∧
    max (2048 : Nat) 49 = max_size := by
  have h := normalize_truncates ⟨4097, 100, 3⟩ (by decide) (by decide) (by decide)
  exact ⟨by rw [h.1]; decide, by decide⟩

/-- C9: normalization is not total on validly decoded images: on a
1x4097 image (max edge over 2048) the truncated width is
`1 * 2048 / 4097 = 0`, so the code hands Pillow a zero target dimension
and the resize raises `ValueError` — the normalization step fails,
contradicting the claim that it never fails for a validly decoded
image. -/
theorem normalize_fails_extreme_aspect :
    normalizeRun ⟨1, 4097, 3⟩ = Except.error PilError.zeroSize ∧
    1 * max_size / max 1 4097 = 0 := by
  decide

/-- C5 counterexample: on corrupt, undecodable input bytes — the
exhaustion case, where even the interpolation fallback can never run —
`process_image` raises the generic processing-failed error with status
400, which is not in the 5xx class the claim requires for exhaustion. -/
theorem process_image_exhaustion_counterexample :
    process_image corruptEnv 4 = Except.error ⟨400, processingFailed⟩ ∧
    ¬ 500 ≤ (400 : Nat) :=
  ⟨rfl, by decide⟩

/-- C5 amended: every failure `process_image` surfaces — including the
exhaustion case of undecodable bytes — is the single generic
processing-failed error with status 400: a 4xx-class response, with no
5xx-class response produced by this handler. -/
theorem process_image_errors_are_400 (env : AppEnv) (scale : Nat)
    (e : HttpError) (h : process_image env scale = Except.error e) :
    e.status = 400 ∧ e.detail = processingFailed := by
  unfold process_image at h
  cases hdec : env.decoded with
  | none =>
    rw [hdec] at h
    injection h with h
    rw [← h]
    exact ⟨rfl, rfl⟩
  | some raw =>
    rw [hdec] at h
    dsimp only at h
    cases hnorm : normalizeRun raw.convertRGB with
    | error pe =>
      rw [hnorm] at h
      injection h with h
      rw [← h]
      exact ⟨rfl, rfl⟩
    | ok image =>
      rw [hnorm] at h
      dsimp only at h
      by_cases henc : env.encodeOk = true
      · rw [if_pos henc] at h
        cases h
      · rw [if_neg henc] at h
        injection h with h
        rw [← h]
        exact ⟨rfl, rfl⟩

/-- Witness for C5 amended, instantiated at the corrupt-bytes
environment. -/
theorem process_image_errors_are_400_witness :
    HttpError.status ⟨400, processingFailed⟩ = 400 ∧
    HttpError.detail ⟨400, processingFailed⟩ = processingFailed :=
  process_image_errors_are_400 corruptEnv 4 ⟨400, processingFailed⟩ rfl

/-- C7: an integer scale outside {2,4,8} is rejected with the 400 scale
validation error at both endpoints, before any engine or fallback work:
the response is the same constant for every backend environment. -/
theorem invalid_scale_rejected (scale : Nat) (h : scale ∉ validScales) :
    (∀ ct : String, ∀ env : AppEnv, contentTypeIsImage ct = true →
       upscale_binary ct scale env = Except.error ⟨400, scaleMustBe⟩) ∧
    (∀ ok : Bool, ∀ env : AppEnv,
       upscale_base64 ok scale env = Except.error ⟨400, scaleMustBe⟩) := by
  constructor
  · intro ct env hct
    simp [upscale_binary, hct, h]
  · intro ok env
    simp [upscale_base64, h]

/-- Witness for C7 at scale 3: both endpoints answer with the scale
validation error. -/
theorem invalid_scale_rejected_witness :
    upscale_binary imageMime 3 corruptEnv = Except.error ⟨400, scaleMustBe⟩ ∧
    upscale_base64 true 3 corruptEnv = Except.error ⟨400, scaleMustBe⟩ := by
  have h := invalid_scale_rejected 3 (by decide)
  exact ⟨h.1 imageMime corruptEnv (by decide), h.2 true corruptEnv⟩

/-- C10: `upscale_image` performs no validation of its scale argument:
for every positive scale, with no binary available the fallback returns
exactly (w*scale, h*scale); with the binary present but failing,
likewise; and a scale outside {2,4,8} reaching the binary path is mapped
to the default general x4 model name. -/
theorem upscale_image_no_scale_validation (scale : Nat) (_hpos : 0 < scale) :
    (∀ image : Image, ∀ ncnnEnv : NcnnEnv,
       upscale_image ⟨none, ncnnEnv⟩ image scale = upscale_fallback image scale ∧
       (upscale_image ⟨none, ncnnEnv⟩ image scale).width = image.width * scale ∧
       (upscale_image ⟨none, ncnnEnv⟩ image scale).height = image.height * scale) ∧
    (∀ image : Image, ∀ env : EngineEnv, ∀ b : String, env.binary = some b →
       isEngineFailure (upscale_ncnn b env.ncnn scale).result = true →
       (upscale_image env image scale).width = image.width * scale ∧
       (upscale_image env image scale).height = image.height * scale) ∧
    (scale ∉ validScales → get_model_name scale = generalX4Model) := by
  refine ⟨?_, ?_, ?_⟩
  · intro image ncnnEnv
    exact ⟨rfl, rfl, rfl⟩
  · intro image env b hb hfail
    rw [upscale_image_fallback_of_failure env image scale b hb hfail]
    exact ⟨rfl, rfl⟩
  · intro hs
    simp [validScales] at hs
    obtain ⟨h2, h4, h8⟩ := hs
    simp [get_model_name, h2, h4, h8]

/-- Witness for C10 at the out-of-set scale 3 with no binary available. -/
theorem upscale_image_no_scale_validation_witness :
    upscale_image ⟨none, sampleNcnnEnv⟩ ⟨10, 20, 3⟩ 3 =
      upscale_fallback ⟨10, 20, 3⟩ 3 ∧
    (upscale_image ⟨none, sampleNcnnEnv⟩ ⟨10, 20, 3⟩ 3).width = 30 ∧
    get_model_name 3 = generalX4Model := by
  have h := upscale_image_no_scale_validation 3 (by decide)
  have h1 := h.1 ⟨10, 20, 3⟩ sampleNcnnEnv
  exact ⟨h1.1, by rw [h1.2.1]; rfl, h.2.2 (by decide)⟩

end UpscalerApp
